import Mathlib

/-! Soundboks firmware trial: timer driver, callback scheduler and interaction monitor.

A shallow embedding of `soundboks_fw/timer/timer.h`, `soundboks_fw/timer/timer.c`
and `soundboks_fw/main.c`, and the properties of the driver and of the monitor
that the design document states.

Conventions of the embedding.

* The target is the PIC32MX named in `timer.h`: `size_t`, `uint32_t` and the
  registers are 32 bits wide, so unsigned arithmetic is taken modulo `2 ^ 32`.
* A register name of `timer.h` stands for the location it designates (its
  address); an assignment `REG = v;` is a store to that address.
* The file-scope variables of `timer.c` are the fields of `Driver`; the statics
  of `main` are the fields of `Main`.
* A function declared `int` yields `Option Int`: `some r` for `return r;` and
  `none` where control reaches the closing brace without a `return`.
-/

namespace Soundboks

/-! ## `timer.h` -/

def TIMER_2_IRQ_REG : Nat := 9
def TIMER_2_VECTOR_REG : Nat := 8
def TIMER_3_IRQ_REG : Nat := 14
def TIMER3_VECTOR_REG : Nat := 12

def TIMER_2_PRIORITY_REG : Nat := 0xBF8810B0
def TIMER_3_PRIORITY_REG : Nat := 0xBF8810C0

def TIMER_2_INT_FLAG_REG : Nat := 0xBF881030
def TIMER_3_INT_FLAG_REG : Nat := 0xBF881030

def TIMER_2_INT_EN_REG : Nat := 0xBF881060
def TIMER_3_INT_EN_REG : Nat := 0xBF881060

def TIMER_2_CONF_REG : Nat := 0xBF800800
def TIMER_2_COUNTER_REG : Nat := 0xBF800810
def TIMER_2_PERIOD_REG : Nat := 0xBF800820
def TIMER_3_CONF_REG : Nat := 0xBF800A00
def TIMER_3_COUNTER_REG : Nat := 0xBF800A10
def TIMER_3_PERIOD_REG : Nat := 0xBF800A20

def CLEAR_REGISTER_OFFSET : Nat := 0x4
def SET_REGISTER_OFFSET : Nat := 0x8
def INVERT_REGISTER_OFFSET : Nat := 0xC

def USE_CLR_REG : Bool := true
def USE_SET_REG : Bool := true
def USE_INV_REG : Bool := true

def NO_CRL_REG : Bool := false
def NO_SET_REG : Bool := false
def NO_INV_REG : Bool := false

def TIMER_MAX_MS : Nat := 4581298

/-! ## Machine model -/

/-- Number of values of a 32-bit word (`uint32_t`, and `size_t` on the PIC32). -/
def WORD : Nat := 2 ^ 32

/-- Register space: the 32-bit word held at each address. -/
abbrev Mem := Nat → Nat

/-- Word read. Registers sit at addresses that are multiples of 16; the three
words behind each one are its write-only CLR, SET and INV ports, which are
taken to read as 0. -/
def Mem.load (m : Mem) (addr : Nat) : Nat :=
  if addr % 16 = 0 then m addr else 0

/-- Word write. A write to a register replaces its contents; a write of `v` to
the CLR, SET or INV port of a register clears, sets or toggles in that register
the bits that are 1 in `v`. -/
def Mem.store (m : Mem) (addr val : Nat) : Mem :=
  let v := val % WORD
  let base := addr - addr % 16
  if addr % 16 = CLEAR_REGISTER_OFFSET then
    fun a => if a = base then m base &&& ((WORD - 1) ^^^ v) else m a
  else if addr % 16 = SET_REGISTER_OFFSET then
    fun a => if a = base then (m base ||| v) % WORD else m a
  else if addr % 16 = INVERT_REGISTER_OFFSET then
    fun a => if a = base then (m base ^^^ v) % WORD else m a
  else
    fun a => if a = addr then v else m a

/-- Lines written by the `ERROR` and `PRINT` macros, by call site. -/
inductive Message where
  | startTimerOutOfRange (ms allowed : Nat)
  | timerNotInitialized
  | couldNotRegisterCallback
  | mainSwitchDefaulted
  deriving DecidableEq

/-- The driver as the program sees it: the register space, the global
interrupt enable toggled by `di` and `ei`, the three file-scope variables of
`timer.c`, and what has been printed. A `timer_callback_t` and a `void*` are
held as addresses. -/
structure Driver where
  mem : Mem
  interruptsEnabled : Bool
  timerInitialized : Bool
  timerCallback : Nat
  callbackContext : Nat
  output : List Message

/-- An indirect call `fn(arg)` through a `timer_callback_t`. -/
structure Call where
  fn : Nat
  arg : Nat
  deriving DecidableEq

/-- Sample state: the file-scope variables as the C start-up leaves them
(`timerInitialized = false`, null callback and context), every register
reading 0, nothing printed. -/
def Driver.zero : Driver :=
  { mem := fun _ => 0
    interruptsEnabled := true
    timerInitialized := false
    timerCallback := 0
    callbackContext := 0
    output := [] }

/-- Instruction `di`: disable interrupts. -/
def di (s : Driver) : Driver := { s with interruptsEnabled := false }

/-- Instruction `ei`: enable interrupts. -/
def ei (s : Driver) : Driver := { s with interruptsEnabled := true }

/-- Instruction `ehb`: execution hazard barrier, no effect on the state. -/
def ehb (s : Driver) : Driver := s

/-- Statement `REG = v;` -/
def assign (addr val : Nat) (s : Driver) : Driver :=
  { s with mem := s.mem.store addr val }

/-- Macros `ERROR` and `PRINT`. -/
def PRINT (msg : Message) (s : Driver) : Driver :=
  { s with output := s.output ++ [msg] }

/-! ## `timer.c` -/

/-- Source `clearBit`. With `hasClrReg` the word at `address +
CLEAR_REGISTER_OFFSET` is or-ed with `1 << bit` in place. Otherwise the
statement is `address &= ~(1 << bit);`, which alters the by-value parameter
only: nothing is stored. Returns 0. -/
def clearBit (address bit : Nat) (hasClrReg : Bool) (s : Driver) : Int × Driver :=
  if hasClrReg then
    (0, assign (address + CLEAR_REGISTER_OFFSET)
          (s.mem.load (address + CLEAR_REGISTER_OFFSET) ||| (1 <<< bit)) s)
  else
    (0, s)

/-- Source `setBit`. With `hasSetReg` the word at `address +
SET_REGISTER_OFFSET` is or-ed with `1 << bit` in place. Otherwise the statement
is `address |= 1 << bit;`, which alters the by-value parameter only: nothing
is stored. Returns 0. -/
def setBit (address bit : Nat) (hasSetReg : Bool) (s : Driver) : Int × Driver :=
  if hasSetReg then
    (0, assign (address + SET_REGISTER_OFFSET)
          (s.mem.load (address + SET_REGISTER_OFFSET) ||| (1 <<< bit)) s)
  else
    (0, s)

/-- Source `timerDoneISR`: the two `clearBit` calls on the interrupt flag
register, then the call `timerCallback(callbackContext)`. The result is the
state in which that call is made and the calls made, in order. -/
def timerDoneISR (s : Driver) : Driver × List Call :=
  let s := (clearBit TIMER_2_INT_FLAG_REG 9 NO_CRL_REG s).2
  let s := (clearBit TIMER_3_INT_FLAG_REG 14 NO_CRL_REG s).2
  (s, [⟨s.timerCallback, s.callbackContext⟩])

/-- Source `initializeTimer`. The body has no `return` and no assignment to
`timerInitialized`. -/
def initializeTimer (s : Driver) : Option Int × Driver :=
  let s := ehb (di s)
  let s := (clearBit TIMER_2_CONF_REG 15 USE_CLR_REG s).2
  let s := (clearBit TIMER_3_CONF_REG 15 USE_CLR_REG s).2
  let s := (setBit TIMER_2_CONF_REG 3 USE_SET_REG s).2
  let s := (setBit TIMER_2_CONF_REG 1 USE_SET_REG s).2
  let s := (setBit TIMER_2_CONF_REG 4 USE_SET_REG s).2
  let s := (setBit TIMER_2_CONF_REG 5 USE_SET_REG s).2
  let s := (setBit TIMER_2_CONF_REG 6 USE_SET_REG s).2
  let s := (clearBit TIMER_3_INT_EN_REG 14 NO_CRL_REG s).2
  let s := (setBit TIMER_3_PRIORITY_REG 10 NO_SET_REG s).2
  let s := (clearBit TIMER_3_PRIORITY_REG 11 NO_CRL_REG s).2
  let s := (setBit TIMER_3_PRIORITY_REG 12 NO_SET_REG s).2
  let s := (clearBit TIMER_2_INT_FLAG_REG 9 NO_CRL_REG s).2
  let s := (clearBit TIMER_3_INT_FLAG_REG 14 NO_CRL_REG s).2
  let s := ehb (ei s)
  (none, s)

/-- The expression `((1875 * ms) / 4) - 1` of `startTimer`, in unsigned 32-bit
arithmetic: the product and the subtraction wrap modulo `2 ^ 32`. It is the
initialiser of `periodRegisterValue` and occurs a second time in the
assignment to `TIMER_3_PERIOD_REG`. -/
def periodRegisterValue (ms : Nat) : Nat :=
  (((1875 * ms) % WORD) / 4 + (WORD - 1)) % WORD

/-- Source `startTimer`. The local `periodRegisterValue` is declared `static`
with an initialiser that depends on `ms`; it is taken as evaluated from `ms` at
each call, as the second occurrence of the expression is. On the path that
arms the timer the body ends without a `return`. -/
def startTimer (ms : Nat) (s : Driver) : Option Int × Driver :=
  if ms > TIMER_MAX_MS then
    (some (-1), PRINT (.startTimerOutOfRange ms TIMER_MAX_MS) s)
  else
    let s := if !s.timerInitialized then
        (initializeTimer (PRINT .timerNotInitialized s)).2
      else s
    let s := ehb (di s)
    let s := assign TIMER_2_PERIOD_REG (periodRegisterValue ms &&& 0x0000FFFF) s
    let s := if ms > 139 then
        assign TIMER_3_PERIOD_REG ((periodRegisterValue ms >>> 16) &&& 0x0000FFFF) s
      else s
    let s := assign TIMER_2_COUNTER_REG 0 s
    let s := assign TIMER_3_COUNTER_REG 0 s
    let s := (setBit TIMER_2_CONF_REG 15 USE_SET_REG s).2
    let s := (setBit TIMER_2_INT_EN_REG 14 NO_SET_REG s).2
    let s := ehb (ei s)
    (none, s)

/-- Source `callback_register`: stores the pair, then tests the result of
`startTimer`. Where `startTimer` ended without a `return` there is no value to
test, and the result of the registration is `none` as well. -/
def callback_register (cb time ctx : Nat) (s : Driver) : Option Int × Driver :=
  let s := { s with timerCallback := cb, callbackContext := ctx }
  match startTimer time s with
  | (some r, s) =>
      if r ≠ 0 then (some (-1), PRINT .couldNotRegisterCallback s) else (some 0, s)
  | (none, s) => (none, s)

/-- The 32-bit period the chained timer counts to:
`(TIMER_3_PERIOD_REG << 16) | TIMER_2_PERIOD_REG`. -/
def combinedPeriod (s : Driver) : Nat :=
  (s.mem TIMER_3_PERIOD_REG <<< 16) ||| s.mem TIMER_2_PERIOD_REG

/-- Sample state of a running timer whose interrupt is pending: counters at 5
and 1, the flag bits 9 and 14 set, the enable bit 14 set, timer 2 switched on
with the configuration `initializeTimer` gives it. -/
def Driver.busy : Driver :=
  { Driver.zero with
    mem := fun a =>
      if a = TIMER_2_COUNTER_REG then 5
      else if a = TIMER_3_COUNTER_REG then 1
      else if a = TIMER_3_INT_FLAG_REG then 0x4200
      else if a = TIMER_3_INT_EN_REG then 0x4000
      else if a = TIMER_2_CONF_REG then 0x807A
      else 0 }

/-! ## `main.c` -/

def STATE_INIT : Nat := 0
def STATE_ACTIVE : Nat := 1
def STATE_PASSIVE : Nat := 2
def STATE_END : Nat := 3

/-- The statics of `main` whose address is taken: the target of a
`main_state_t*`. -/
inductive Ref where
  | state
  | runProgram
  deriving DecidableEq

/-- Source `example_context_t`; the two times are `uint32_t` seconds. -/
structure example_context_t where
  timerLastSetTo : Nat
  totalContextRunTime : Nat
  mainState : Ref
  deriving DecidableEq

/-- Addresses fixed at link time, which the source does not give: of the
function `cb`, of the static `context` and of the static `state`. -/
structure Layout where
  cb : Nat
  context : Nat
  state : Nat

/-- Sample layout. -/
def Layout.sample : Layout :=
  { cb := 0x9D001000, context := 0xA0000010, state := 0xA0000000 }

/-- The statics of `main` (the variable `state` as the integer of its
enumerator), together with the driver. -/
structure Main where
  state : Nat
  interactionsInTheLast5Min : Bool
  runProgram : Bool
  context : example_context_t
  driver : Driver

/-- The statics as `main` initialises them. The initialiser of `context` is
`{ 0, &state, &runProgram }` for the members `timerLastSetTo`,
`totalContextRunTime`, `mainState` in this order: `totalContextRunTime` starts
as the address of `state` and `mainState` points at `runProgram`. -/
def Main.init (L : Layout) (d : Driver) : Main :=
  { state := STATE_INIT
    interactionsInTheLast5Min := true
    runProgram := true
    context := { timerLastSetTo := 0, totalContextRunTime := L.state % WORD,
                 mainState := Ref.runProgram }
    driver := d }

/-- Source `cb`, called with the address of `context`: adds `timerLastSetTo` to
`totalContextRunTime` in `uint32_t` arithmetic, then stores `STATE_ACTIVE`
(the integer 1) into the variable `mainState` points at. Returns 0. -/
def cb (m : Main) : Int × Main :=
  let total : Nat := (m.context.totalContextRunTime + m.context.timerLastSetTo) % WORD
  let m := { m with context := { m.context with totalContextRunTime := total } }
  match m.context.mainState with
  | Ref.state => (0, { m with state := STATE_ACTIVE })
  | Ref.runProgram => (0, { m with runProgram := decide (STATE_ACTIVE ≠ 0) })

/-- The difference `getRTCTime() - getlastInteractionTime()` of two `uint32_t`
values. -/
def elapsedSinceInteraction (rtcTime lastInteractionTime : Nat) : Nat :=
  (rtcTime % WORD + (WORD - lastInteractionTime % WORD)) % WORD

/-- The end of `case STATE_ACTIVE`: `callback_register(&cb, 300000, &context)`,
whose result is discarded, and `state = STATE_PASSIVE`. -/
def registerAndWait (L : Layout) (m : Main) : Main :=
  { m with driver := (callback_register L.cb 300000 L.context m.driver).2,
           state := STATE_PASSIVE }

/-- Source `case STATE_ACTIVE` of `main`, for the two clock readings. -/
def activeCase (L : Layout) (rtcTime lastInteractionTime : Nat) (m : Main) : Main :=
  let recent : Bool := decide (elapsedSinceInteraction rtcTime lastInteractionTime < 300)
  let m := { m with interactionsInTheLast5Min := recent }
  if m.interactionsInTheLast5Min then
    let m := { m with context := { m.context with totalContextRunTime := 0 } }
    let m := { m with context := { m.context with timerLastSetTo := 300 } }
    registerAndWait L m
  else if m.context.totalContextRunTime ≥ 900 then
    { m with runProgram := false }
  else
    let m := { m with context := { m.context with timerLastSetTo := 300 } }
    registerAndWait L m

/-- One pass of the body of `while(runProgram)`: the `switch` on `state`. In
`case STATE_PASSIVE` the pass is one test of the waiting loop, which leaves
everything as it is while `state` is `STATE_PASSIVE`. -/
def mainIteration (L : Layout) (rtcTime lastInteractionTime : Nat) (m : Main) : Main :=
  if m.state = STATE_INIT then
    { m with driver := (initializeTimer m.driver).2, state := STATE_ACTIVE }
  else if m.state = STATE_ACTIVE then
    activeCase L rtcTime lastInteractionTime m
  else if m.state = STATE_PASSIVE then
    m
  else
    { m with driver := PRINT .mainSwitchDefaulted m.driver }

/-- Source `while(runProgram)`: passes of the body for the given clock
readings, as long as `runProgram` holds. -/
def mainLoop (L : Layout) : List (Nat × Nat) → Main → Main
  | [], m => m
  | clock :: rest, m =>
      if m.runProgram then mainLoop L rest (mainIteration L clock.1 clock.2 m) else m

/-- Sample state of the monitor in ACTIVE with the given context values,
`mainState` pointing where `main` makes it point, on the sample driver
state. -/
def Main.active (timerLastSetTo totalRunTime : Nat) : Main :=
  { state := STATE_ACTIVE
    interactionsInTheLast5Min := true
    runProgram := true
    context := { timerLastSetTo := timerLastSetTo, totalContextRunTime := totalRunTime,
                 mainState := Ref.runProgram }
    driver := Driver.zero }

/-- Sample state of the monitor with a state value of no `case`, here
`STATE_END`. -/
def Main.stray : Main :=
  { Main.active 300 900 with state := STATE_END }

/-! ## Frame lemmas -/

theorem initializeTimer_result (s : Driver) : (initializeTimer s).1 = none := rfl

theorem initializeTimer_timerInitialized (s : Driver) :
    (initializeTimer s).2.timerInitialized = s.timerInitialized := by
  simp [initializeTimer, setBit, clearBit, assign, di, ei, ehb, USE_CLR_REG, USE_SET_REG,
    NO_CRL_REG, NO_SET_REG]

theorem initializeTimer_callback (s : Driver) :
    (initializeTimer s).2.timerCallback = s.timerCallback ∧
    (initializeTimer s).2.callbackContext = s.callbackContext := by
  simp [initializeTimer, setBit, clearBit, assign, di, ei, ehb, USE_CLR_REG, USE_SET_REG,
    NO_CRL_REG, NO_SET_REG]

theorem startTimer_reject (ms : Nat) (s : Driver) (h : ms > TIMER_MAX_MS) :
    startTimer ms s = (some (-1), PRINT (.startTimerOutOfRange ms TIMER_MAX_MS) s) := by
  simp [startTimer, h]

theorem startTimer_result (ms : Nat) (s : Driver) (h : ms ≤ TIMER_MAX_MS) :
    (startTimer ms s).1 = none := by
  simp [startTimer, Nat.not_lt.mpr h]

theorem startTimer_timerInitialized (ms : Nat) (s : Driver) :
    (startTimer ms s).2.timerInitialized = s.timerInitialized := by
  unfold startTimer
  split
  · rfl
  · cases hi : s.timerInitialized <;> by_cases h139 : ms > 139 <;>
      simp [hi, h139, initializeTimer_timerInitialized, setBit, assign, di, ei, ehb, PRINT,
        USE_SET_REG, NO_SET_REG]

/-- Effect of `clearBit` through the CLR port of a register. -/
theorem clearBit_port_mem (address bit : Nat) (s : Driver) (a : Nat)
    (hreg : address % 16 = 0) (hbit : bit < 32) :
    (clearBit address bit true s).2.mem a =
      if a = address then s.mem address &&& ((WORD - 1) ^^^ 1 <<< bit) else s.mem a := by
  have h4 : (address + 4) % 16 = 4 := by omega
  have hb : address + 4 - 4 = address := by omega
  have hlt : 1 <<< bit % WORD = 1 <<< bit := by
    apply Nat.mod_eq_of_lt
    rw [Nat.shiftLeft_eq, one_mul]
    exact Nat.pow_lt_pow_right (by decide) hbit
  simp [clearBit, assign, Mem.store, Mem.load, CLEAR_REGISTER_OFFSET, h4, hb, hlt]

theorem startTimer_callback (ms : Nat) (s : Driver) :
    (startTimer ms s).2.timerCallback = s.timerCallback ∧
    (startTimer ms s).2.callbackContext = s.callbackContext := by
  unfold startTimer
  split
  · exact ⟨rfl, rfl⟩
  · cases hi : s.timerInitialized <;> by_cases h139 : ms > 139 <;>
      simp [hi, h139, initializeTimer_callback, setBit, assign, di, ei, ehb, PRINT,
        USE_SET_REG, NO_SET_REG]

/-- The pair stored by `callback_register`, whatever `startTimer` answers. -/
theorem callback_register_pending (cb time ctx : Nat) (s : Driver) :
    (callback_register cb time ctx s).2.timerCallback = cb ∧
    (callback_register cb time ctx s).2.callbackContext = ctx := by
  have h := startTimer_callback time { s with timerCallback := cb, callbackContext := ctx }
  unfold callback_register
  dsimp only
  generalize startTimer time { s with timerCallback := cb, callbackContext := ctx } = r at h ⊢
  obtain ⟨res, t⟩ := r
  cases res with
  | none => exact h
  | some v =>
    by_cases hv : v = 0
    · simpa [hv] using h
    · simpa [hv, PRINT] using h

/-- Claim C1: for every `ms > TIMER_MAX_MS` and every prior driver state,
`startTimer ms` returns -1 and the register space (period, counter,
configuration, interrupt enable, flag and priority registers), the global
interrupt enable, the initialized flag and the pending callback are the same
after the call as before it; the only effect is the printed error line. -/
theorem startTimer_out_of_range_unchanged (ms : Nat) (s : Driver) (h : ms > TIMER_MAX_MS) :
    (startTimer ms s).1 = some (-1) ∧
    (startTimer ms s).2.mem = s.mem ∧
    (startTimer ms s).2.interruptsEnabled = s.interruptsEnabled ∧
    (startTimer ms s).2.timerInitialized = s.timerInitialized ∧
    (startTimer ms s).2.timerCallback = s.timerCallback ∧
    (startTimer ms s).2.callbackContext = s.callbackContext ∧
    (startTimer ms s).2.output = s.output ++ [.startTimerOutOfRange ms TIMER_MAX_MS] := by
  rw [startTimer_reject ms s h]
  simp [PRINT]

/-- Claim C1 at `ms = TIMER_MAX_MS + 1` on the sample state. -/
theorem startTimer_out_of_range_unchanged_witness :
    4581299 > TIMER_MAX_MS ∧
    (startTimer 4581299 Driver.zero).1 = some (-1) ∧
    (startTimer 4581299 Driver.zero).2.mem = Driver.zero.mem ∧
    (startTimer 4581299 Driver.zero).2.interruptsEnabled = Driver.zero.interruptsEnabled ∧
    (startTimer 4581299 Driver.zero).2.timerInitialized = Driver.zero.timerInitialized ∧
    (startTimer 4581299 Driver.zero).2.timerCallback = Driver.zero.timerCallback ∧
    (startTimer 4581299 Driver.zero).2.callbackContext = Driver.zero.callbackContext ∧
    (startTimer 4581299 Driver.zero).2.output =
      Driver.zero.output ++ [.startTimerOutOfRange 4581299 TIMER_MAX_MS] :=
  ⟨by decide, startTimer_out_of_range_unchanged 4581299 Driver.zero (by decide)⟩

/-- Claim C7: after `callback_register A t1 ctxA` followed by
`callback_register B t2 ctxB`, for all durations (in range or not) and from
every state, the run of `timerDoneISR` makes exactly one call, `B(ctxB)`; it
calls `A` only if `A` is `B`. -/
theorem single_slot_overwrite (A B ctxA ctxB t1 t2 : Nat) (s : Driver) :
    (timerDoneISR (callback_register B t2 ctxB (callback_register A t1 ctxA s).2).2).2
      = [⟨B, ctxB⟩] ∧
    (A ≠ B →
      ∀ c ∈ (timerDoneISR (callback_register B t2 ctxB (callback_register A t1 ctxA s).2).2).2,
        c.fn ≠ A) := by
  have h := callback_register_pending B t2 ctxB (callback_register A t1 ctxA s).2
  have hcalls :
      (timerDoneISR (callback_register B t2 ctxB (callback_register A t1 ctxA s).2).2).2
        = [⟨B, ctxB⟩] := by
    simp [timerDoneISR, clearBit, NO_CRL_REG, h.1, h.2]
  refine ⟨hcalls, fun hne c hc => ?_⟩
  rw [hcalls, List.mem_singleton] at hc
  rw [hc]
  exact fun hBA => hne hBA.symm

/-- Claim C8: for every `ms > TIMER_MAX_MS`, `callback_register cb ms ctx`
returns -1, the pending pair afterwards is `(cb, ctx)`, and the register space,
the global interrupt enable and the initialized flag are unchanged. -/
theorem callback_register_out_of_range (cb ctx ms : Nat) (s : Driver) (h : ms > TIMER_MAX_MS) :
    (callback_register cb ms ctx s).1 = some (-1) ∧
    (callback_register cb ms ctx s).2.timerCallback = cb ∧
    (callback_register cb ms ctx s).2.callbackContext = ctx ∧
    (callback_register cb ms ctx s).2.mem = s.mem ∧
    (callback_register cb ms ctx s).2.interruptsEnabled = s.interruptsEnabled ∧
    (callback_register cb ms ctx s).2.timerInitialized = s.timerInitialized := by
  unfold callback_register
  simp only [startTimer_reject ms _ h]
  simp [PRINT]

/-- Claim C8 at `ms = TIMER_MAX_MS + 1`, with the pair `(3, 5)` pending from an
earlier registration. -/
theorem callback_register_out_of_range_witness :
    4581299 > TIMER_MAX_MS ∧
    (callback_register 3 300000 5 Driver.zero).2.timerCallback = 3 ∧
    ((callback_register 7 4581299 9 (callback_register 3 300000 5 Driver.zero).2).1 = some (-1) ∧
    (callback_register 7 4581299 9 (callback_register 3 300000 5 Driver.zero).2).2.timerCallback
      = 7 ∧
    (callback_register 7 4581299 9 (callback_register 3 300000 5 Driver.zero).2).2.callbackContext
      = 9 ∧
    (callback_register 7 4581299 9 (callback_register 3 300000 5 Driver.zero).2).2.mem
      = (callback_register 3 300000 5 Driver.zero).2.mem ∧
    (callback_register 7 4581299 9 (callback_register 3 300000 5 Driver.zero).2).2.interruptsEnabled
      = (callback_register 3 300000 5 Driver.zero).2.interruptsEnabled ∧
    (callback_register 7 4581299 9 (callback_register 3 300000 5 Driver.zero).2).2.timerInitialized
      = (callback_register 3 300000 5 Driver.zero).2.timerInitialized) :=
  ⟨by decide, by decide,
    callback_register_out_of_range 7 9 4581299 (callback_register 3 300000 5 Driver.zero).2
      (by decide)⟩

/-! ## Results and the initialized flag -/

/-- Claim C9, what the code does for a duration in range: for every
`ms ≤ TIMER_MAX_MS` (so for every `1 ≤ ms ≤ TIMER_MAX_MS`) `startTimer ms`
reaches the end of its body without a `return`, so it yields no result, 0 or
other, and `callback_register` has no result to test. -/
theorem startTimer_in_range_yields_no_result (cb ctx ms : Nat) (s : Driver)
    (h : ms ≤ TIMER_MAX_MS) :
    (startTimer ms s).1 = none ∧
    (startTimer ms s).1 ≠ some 0 ∧
    (callback_register cb ms ctx s).1 = none ∧
    (callback_register cb ms ctx s).1 ≠ some 0 := by
  have hs := startTimer_result ms { s with timerCallback := cb, callbackContext := ctx } h
  have hc : (callback_register cb ms ctx s).1 = none := by
    unfold callback_register
    dsimp only
    generalize startTimer ms { s with timerCallback := cb, callbackContext := ctx } = r at hs ⊢
    obtain ⟨res, t⟩ := r
    simp only at hs
    subst hs
    rfl
  refine ⟨startTimer_result ms s h, ?_, hc, ?_⟩
  · rw [startTimer_result ms s h]
    simp
  · rw [hc]
    simp

/-- Claim C9 at `ms = 1` on the sample state. -/
theorem startTimer_in_range_yields_no_result_witness :
    1 ≤ TIMER_MAX_MS ∧
    ((startTimer 1 Driver.zero).1 = none ∧
    (startTimer 1 Driver.zero).1 ≠ some 0 ∧
    (callback_register 7 1 9 Driver.zero).1 = none ∧
    (callback_register 7 1 9 Driver.zero).1 ≠ some 0) :=
  ⟨by decide, startTimer_in_range_yields_no_result 7 9 1 Driver.zero (by decide)⟩

/-- Claim C10, what the code does with the flag: neither `initializeTimer` nor
`startTimer` assigns `timerInitialized`, so from every state it stays as it
was. On the sample state it is false after `initializeTimer`, a following
`startTimer 1` prints the not-initialized line and initialises again, and so
does a second `startTimer 1` after a first. -/
theorem timerInitialized_is_never_set (ms : Nat) (s : Driver) :
    (initializeTimer s).2.timerInitialized = s.timerInitialized ∧
    (startTimer ms s).2.timerInitialized = s.timerInitialized ∧
    (initializeTimer Driver.zero).2.timerInitialized = false ∧
    (startTimer 1 (initializeTimer Driver.zero).2).2.output = [.timerNotInitialized] ∧
    (startTimer 1 (startTimer 1 Driver.zero).2).2.timerInitialized = false ∧
    (startTimer 1 (startTimer 1 Driver.zero).2).2.output
      = [.timerNotInitialized, .timerNotInitialized] :=
  ⟨initializeTimer_timerInitialized s, startTimer_timerInitialized ms s, by decide, by decide,
    by decide, by decide⟩

/-! ## Register effects of `initializeTimer`, `startTimer` and the interrupt routine -/

/-- Claim C14, what the code does in the interrupt routine: the two `clearBit`
calls are made without a CLR port and store nothing, so the callback is called,
once and with the stored context, in the very state the routine was entered
in. On the sample state with both flags pending, bits 9 and 14 of the flag
register are still set when the callback runs. -/
theorem timerDoneISR_leaves_flags (s : Driver) :
    (timerDoneISR s).1 = s ∧
    (timerDoneISR s).2 = [⟨s.timerCallback, s.callbackContext⟩] ∧
    (Driver.busy.mem TIMER_2_INT_FLAG_REG).testBit 9 = true ∧
    (Driver.busy.mem TIMER_3_INT_FLAG_REG).testBit 14 = true ∧
    ((timerDoneISR Driver.busy).1.mem TIMER_2_INT_FLAG_REG).testBit 9 = true ∧
    ((timerDoneISR Driver.busy).1.mem TIMER_3_INT_FLAG_REG).testBit 14 = true := by
  refine ⟨?_, ?_, by decide, by decide, by decide, by decide⟩ <;>
    simp [timerDoneISR, clearBit, NO_CRL_REG]

/-! ## The interaction monitor -/

theorem registerAndWait_pending (L : Layout) (m : Main) :
    (registerAndWait L m).driver.timerCallback = L.cb ∧
    (registerAndWait L m).driver.callbackContext = L.context :=
  callback_register_pending L.cb 300000 L.context m.driver

theorem cb_context (m : Main) :
    (cb m).2.context.totalContextRunTime
      = (m.context.totalContextRunTime + m.context.timerLastSetTo) % WORD ∧
    (cb m).2.context.timerLastSetTo = m.context.timerLastSetTo ∧
    (cb m).2.context.mainState = m.context.mainState ∧
    (cb m).2.driver = m.driver := by
  unfold cb
  cases h : m.context.mainState <;> simp [h]

theorem activeCase_recent (L : Layout) (rtc last : Nat) (m : Main)
    (h : elapsedSinceInteraction rtc last < 300) :
    activeCase L rtc last m =
      registerAndWait L { m with interactionsInTheLast5Min := true,
                                 context := { m.context with totalContextRunTime := 0,
                                                             timerLastSetTo := 300 } } := by
  simp [activeCase, h]

/-- Claim C15: for every context value, one ACTIVE evaluation of the running
loop that sees `elapsedSinceInteraction < 300` sets `totalContextRunTime` to 0
and `timerLastSetTo` to 300, registers `cb` with 300000 ms and the address of
the context, sets the state to PASSIVE and leaves `runProgram` true. -/
theorem active_evaluation_with_interaction (L : Layout) (rtc last : Nat) (m : Main)
    (hs : m.state = STATE_ACTIVE) (hr : m.runProgram = true)
    (he : elapsedSinceInteraction rtc last < 300) :
    (mainIteration L rtc last m).context.totalContextRunTime = 0 ∧
    (mainIteration L rtc last m).context.timerLastSetTo = 300 ∧
    (mainIteration L rtc last m).driver = (callback_register L.cb 300000 L.context m.driver).2 ∧
    (mainIteration L rtc last m).driver.timerCallback = L.cb ∧
    (mainIteration L rtc last m).driver.callbackContext = L.context ∧
    (mainIteration L rtc last m).state = STATE_PASSIVE ∧
    (mainIteration L rtc last m).runProgram = true := by
  have hm : mainIteration L rtc last m = activeCase L rtc last m := by
    simp [mainIteration, hs, STATE_ACTIVE, STATE_INIT]
  rw [hm, activeCase_recent L rtc last m he]
  exact ⟨rfl, rfl, rfl, (registerAndWait_pending L _).1, (registerAndWait_pending L _).2, rfl, hr⟩

/-- Claim C15 with `totalContextRunTime = 600` and no time elapsed since the
interaction. -/
theorem active_evaluation_with_interaction_witness :
    (Main.active 300 600).state = STATE_ACTIVE ∧ (Main.active 300 600).runProgram = true ∧
    elapsedSinceInteraction 1000 1000 < 300 ∧
    ((mainIteration Layout.sample 1000 1000 (Main.active 300 600)).context.totalContextRunTime = 0 ∧
    (mainIteration Layout.sample 1000 1000 (Main.active 300 600)).context.timerLastSetTo = 300 ∧
    (mainIteration Layout.sample 1000 1000 (Main.active 300 600)).driver
      = (callback_register Layout.sample.cb 300000 Layout.sample.context
          (Main.active 300 600).driver).2 ∧
    (mainIteration Layout.sample 1000 1000 (Main.active 300 600)).driver.timerCallback
      = Layout.sample.cb ∧
    (mainIteration Layout.sample 1000 1000 (Main.active 300 600)).driver.callbackContext
      = Layout.sample.context ∧
    (mainIteration Layout.sample 1000 1000 (Main.active 300 600)).state = STATE_PASSIVE ∧
    (mainIteration Layout.sample 1000 1000 (Main.active 300 600)).runProgram = true) :=
  ⟨rfl, rfl, by decide,
    active_evaluation_with_interaction Layout.sample 1000 1000 (Main.active 300 600) rfl rfl
      (by decide)⟩

/-- Claim C17, what `cb` does on a context whose `mainState` points at
`runProgram`, as in the context `main` constructs: it adds `timerLastSetTo` to
`totalContextRunTime` and leaves `timerLastSetTo`, but it stores into
`runProgram`; the variable `state` keeps its value. -/
theorem cb_stores_into_runProgram (m : Main) (h : m.context.mainState = Ref.runProgram) :
    (cb m).2.context.totalContextRunTime
      = (m.context.totalContextRunTime + m.context.timerLastSetTo) % WORD ∧
    (cb m).2.context.timerLastSetTo = m.context.timerLastSetTo ∧
    (cb m).2.runProgram = true ∧
    (cb m).2.state = m.state := by
  refine ⟨(cb_context m).1, (cb_context m).2.1, ?_, ?_⟩ <;> simp [cb, h, STATE_ACTIVE]

/-- Claim C17 on the program as it starts: after the pass for `STATE_INIT` and
an ACTIVE evaluation the monitor waits in PASSIVE with the context `main`
constructed, and after `cb` the state is still `STATE_PASSIVE`. -/
theorem cb_stores_into_runProgram_witness :
    (Main.init Layout.sample Driver.zero).context.mainState = Ref.runProgram ∧
    (mainIteration Layout.sample 0 0 (mainIteration Layout.sample 0 0
      (Main.init Layout.sample Driver.zero))).context.mainState = Ref.runProgram ∧
    (mainIteration Layout.sample 0 0 (mainIteration Layout.sample 0 0
      (Main.init Layout.sample Driver.zero))).state = STATE_PASSIVE ∧
    ((cb (mainIteration Layout.sample 0 0 (mainIteration Layout.sample 0 0
      (Main.init Layout.sample Driver.zero)))).2.context.totalContextRunTime
      = ((mainIteration Layout.sample 0 0 (mainIteration Layout.sample 0 0
          (Main.init Layout.sample Driver.zero))).context.totalContextRunTime
        + (mainIteration Layout.sample 0 0 (mainIteration Layout.sample 0 0
          (Main.init Layout.sample Driver.zero))).context.timerLastSetTo) % WORD ∧
    (cb (mainIteration Layout.sample 0 0 (mainIteration Layout.sample 0 0
      (Main.init Layout.sample Driver.zero)))).2.context.timerLastSetTo
      = (mainIteration Layout.sample 0 0 (mainIteration Layout.sample 0 0
          (Main.init Layout.sample Driver.zero))).context.timerLastSetTo ∧
    (cb (mainIteration Layout.sample 0 0 (mainIteration Layout.sample 0 0
      (Main.init Layout.sample Driver.zero)))).2.runProgram = true ∧
    (cb (mainIteration Layout.sample 0 0 (mainIteration Layout.sample 0 0
      (Main.init Layout.sample Driver.zero)))).2.state
      = (mainIteration Layout.sample 0 0 (mainIteration Layout.sample 0 0
          (Main.init Layout.sample Driver.zero))).state) ∧
    (cb (mainIteration Layout.sample 0 0 (mainIteration Layout.sample 0 0
      (Main.init Layout.sample Driver.zero)))).2.state = STATE_PASSIVE :=
  ⟨rfl, by decide, by decide,
    cb_stores_into_runProgram (mainIteration Layout.sample 0 0 (mainIteration Layout.sample 0 0
      (Main.init Layout.sample Driver.zero))) (by decide), by decide⟩

/-- Claim C18, counterexample: with the state value `STATE_END`, which has no
`case`, a pass of the loop prints the error and leaves `runProgram` true and
the state as it is; three passes print it three times and the loop is still
running. -/
theorem default_branch_does_not_halt :
    (mainIteration Layout.sample 0 0 Main.stray).driver.output = [.mainSwitchDefaulted] ∧
    (mainIteration Layout.sample 0 0 Main.stray).runProgram = true ∧
    (mainIteration Layout.sample 0 0 Main.stray).state = STATE_END ∧
    (mainLoop Layout.sample [(0, 0), (0, 0), (0, 0)] Main.stray).driver.output
      = [.mainSwitchDefaulted, .mainSwitchDefaulted, .mainSwitchDefaulted] ∧
    (mainLoop Layout.sample [(0, 0), (0, 0), (0, 0)] Main.stray).runProgram = true := by
  decide

/-- Claim C18 as amended: whenever the running loop observes a state value
other than INIT, ACTIVE and PASSIVE, each pass takes the default branch, which
prints the error and changes neither the state nor `runProgram`: after any
number of passes the error has been printed once per pass and the loop is
still running. -/
theorem default_branch_reports_and_continues (L : Layout) (clocks : List (Nat × Nat)) (m : Main)
    (hr : m.runProgram = true) (h0 : m.state ≠ STATE_INIT) (h1 : m.state ≠ STATE_ACTIVE)
    (h2 : m.state ≠ STATE_PASSIVE) :
    (mainLoop L clocks m).driver.output
      = m.driver.output ++ List.replicate clocks.length Message.mainSwitchDefaulted ∧
    (mainLoop L clocks m).runProgram = true ∧
    (mainLoop L clocks m).state = m.state ∧
    (mainLoop L clocks m).context = m.context := by
  induction clocks generalizing m with
  | nil => simp [mainLoop, hr]
  | cons c rest ih =>
    have hstep : mainIteration L c.1 c.2 m
        = { m with driver := PRINT .mainSwitchDefaulted m.driver } := by
      simp [mainIteration, h0, h1, h2]
    have hrec := ih { m with driver := PRINT .mainSwitchDefaulted m.driver } hr h0 h1 h2
    have hloop : mainLoop L (c :: rest) m
        = mainLoop L rest { m with driver := PRINT .mainSwitchDefaulted m.driver } := by
      rw [mainLoop, if_pos hr, hstep]
    rw [hloop]
    refine ⟨?_, hrec.2.1, hrec.2.2.1, hrec.2.2.2⟩
    rw [hrec.1]
    simp [PRINT, List.replicate_succ]

/-- Claim C18 as amended, for two passes from the state value `STATE_END`. -/
theorem default_branch_reports_and_continues_witness :
    Main.stray.runProgram = true ∧ Main.stray.state ≠ STATE_INIT ∧
    Main.stray.state ≠ STATE_ACTIVE ∧ Main.stray.state ≠ STATE_PASSIVE ∧
    ((mainLoop Layout.sample [(0, 0), (5, 0)] Main.stray).driver.output
      = Main.stray.driver.output
        ++ List.replicate [((0 : Nat), (0 : Nat)), (5, 0)].length Message.mainSwitchDefaulted ∧
    (mainLoop Layout.sample [(0, 0), (5, 0)] Main.stray).runProgram = true ∧
    (mainLoop Layout.sample [(0, 0), (5, 0)] Main.stray).state = Main.stray.state ∧
    (mainLoop Layout.sample [(0, 0), (5, 0)] Main.stray).context = Main.stray.context) :=
  ⟨rfl, by decide, by decide, by decide,
    default_branch_reports_and_continues Layout.sample [(0, 0), (5, 0)] Main.stray rfl
      (by decide) (by decide) (by decide)⟩

/-- Claim C19, what the code does above 2290649 ms: for every `ms` with
`2290649 < ms ≤ TIMER_MAX_MS` the product `1875 * ms` is at least `2 ^ 32`, so
it wraps, and the value of the period expression is `2 ^ 30` less than
`1875 * ms / 4 - 1`. -/
theorem period_product_wraps (ms : Nat) (h1 : 2290649 < ms) (h2 : ms ≤ TIMER_MAX_MS) :
    WORD ≤ 1875 * ms ∧
    periodRegisterValue ms + 2 ^ 30 = 1875 * ms / 4 - 1 ∧
    periodRegisterValue ms ≠ 1875 * ms / 4 - 1 := by
  unfold TIMER_MAX_MS at h2
  have hw : 1875 * ms % 4294967296 = 1875 * ms - 4294967296 := by omega
  have hq : (1875 * ms - 4294967296) / 4 = 1875 * ms / 4 - 1073741824 := by omega
  have hp : periodRegisterValue ms = 1875 * ms / 4 - 1073741824 - 1 := by
    unfold periodRegisterValue WORD
    norm_num
    rw [hw, hq]
    omega
  rw [hp]
  unfold WORD
  norm_num
  omega

/-- Claim C19 at `ms = 2290650`: the period expression gives 362, the period
registers are loaded with 362, and `1875 * ms / 4 - 1` is 1073742186. -/
theorem period_product_wraps_witness :
    2290649 < 2290650 ∧ 2290650 ≤ TIMER_MAX_MS ∧
    (WORD ≤ 1875 * 2290650 ∧
    periodRegisterValue 2290650 + 2 ^ 30 = 1875 * 2290650 / 4 - 1 ∧
    periodRegisterValue 2290650 ≠ 1875 * 2290650 / 4 - 1) ∧
    periodRegisterValue 2290650 = 362 ∧
    combinedPeriod (startTimer 2290650 Driver.zero).2 = 362 ∧
    1875 * 2290650 / 4 - 1 = 1073742186 :=
  ⟨by decide, by decide, period_product_wraps 2290650 (by decide) (by decide), by decide,
    by decide, by decide⟩

end Soundboks
